import Mathlib

/-!
# Verification of the Theus state-management runtime (Python layer)

Shallow embedding of the Python source under `src/theus/` — the zone
resolver (`zones.py`), the namespace policy registry (`context.py`), the
`ContextGuard` proxy (`guards.py`) and the engine facade checks
(`engine.py`) — together with theorems settling the specification claims
about them.

Strings are Lean `String`s; the Python `str` operations used by the source
(`startswith`, `split`, `replace`, `re.sub` bracket stripping,
`fnmatch.fnmatch`) are given as executable functions over the character
lists of those strings.
-/

set_option maxHeartbeats 1000000

namespace Theus

/-- Character-list prefix test (kept reduction-friendly: the empty pattern
matches without inspecting the subject). -/
def chPrefixOf : List Char → List Char → Bool
  | [], _ => true
  | a :: as, l =>
    match l with
    | [] => false
    | b :: bs => (a = b) && chPrefixOf as bs

/-- Python `s.startswith(p)`. -/
def pyStartsWith (s p : String) : Bool := chPrefixOf p.data s.data

/-- Python `path.replace("[", ".").replace("]", "")` on the character list:
every opening bracket becomes a dot and every closing bracket is dropped. -/
def normalizeChars : List Char → List Char
  | [] => []
  | c :: rest =>
    if c = '[' then '.' :: normalizeChars rest
    else if c = ']' then normalizeChars rest
    else c :: normalizeChars rest

/-- Worker for `splitDots`: accumulates the current segment (reversed). -/
def splitDotsAux : List Char → List Char → List (List Char)
  | [], acc => [acc.reverse]
  | c :: rest, acc =>
    if c = '.' then acc.reverse :: splitDotsAux rest []
    else splitDotsAux rest (c :: acc)

/-- Python `s.split(".")`: e.g. `"a.b" ↦ ["a","b"]`, `"" ↦ [""]`,
`"a..b" ↦ ["a","","b"]`. -/
def splitDots (l : List Char) : List (List Char) := splitDotsAux l []

/-- First component of Python `s.split(".")`: the characters before the
first dot. -/
def topLevelOf (l : List Char) : List Char := l.takeWhile (· ≠ '.')

/-- Characters remaining after the first closing bracket (helper for the
`re.sub` bracket stripper). -/
def afterFirstRBracket : List Char → List Char
  | [] => []
  | c :: rest => if c = ']' then rest else afterFirstRBracket rest

/-- Whether a closing bracket occurs anywhere in the list. -/
def hasRBracket (l : List Char) : Bool := l.any (· = ']')

/-- Fueled worker for `stripBrackets`; the fuel (initially the list length,
which strictly bounds the number of steps) only discharges termination. -/
def stripBracketsAux : Nat → List Char → List Char
  | 0, l => l
  | _ + 1, [] => []
  | fuel + 1, c :: rest =>
    if c = '[' && hasRBracket rest then stripBracketsAux fuel (afterFirstRBracket rest)
    else c :: stripBracketsAux fuel rest

/-- Python `re.sub(r'\x5b.*?\x5d', '', path)` from
`ContextGuard._check_zone_physics`: each lazily-matched bracketed chunk is
deleted; an opening bracket with no closing bracket after it stays. -/
def stripBrackets (l : List Char) : List Char := stripBracketsAux l.length l

/-- Membership of a character in an `fnmatch` character class, with `a-z`
ranges. -/
def classMember : List Char → Char → Bool
  | a :: '-' :: b :: rest, c => (a ≤ c && c ≤ b) || classMember rest c
  | a :: rest, c => (a = c) || classMember rest c
  | [], _ => false

/-- Scan to the first closing bracket, returning the class body and the
rest of the pattern. -/
def scanRBracket : List Char → Option (List Char × List Char)
  | [] => none
  | c :: rest =>
    if c = ']' then some ([], rest)
    else
      match scanRBracket rest with
      | some (cls, r) => some (c :: cls, r)
      | none => none

/-- Parse an `fnmatch` character class (the characters after `[`):
returns (negated, class body, rest of pattern). A leading `!` negates; a
closing bracket directly after it is a literal member; with no closing
bracket at all the class fails to parse and `[` is a literal. -/
def splitClass (l : List Char) : Option (Bool × List Char × List Char) :=
  match l with
  | '!' :: ']' :: rest =>
    match scanRBracket rest with
    | some (cls, r) => some (true, ']' :: cls, r)
    | none => none
  | '!' :: rest =>
    match scanRBracket rest with
    | some (cls, r) => some (true, cls, r)
    | none => none
  | ']' :: rest =>
    match scanRBracket rest with
    | some (cls, r) => some (false, ']' :: cls, r)
    | none => none
  | _ =>
    match scanRBracket l with
    | some (cls, r) => some (false, cls, r)
    | none => none

/-- Fueled glob matcher implementing `fnmatch.fnmatch` semantics
(`*` any run, `?` any one character, `[...]`/`[!...]` classes, everything
else literal). Every recursive step strictly shrinks pattern + subject, so
fuel `pattern.length + s.length` is exact; the fuel only discharges
termination. -/
def globFuel : Nat → List Char → List Char → Bool
  | 0, p, s => p.isEmpty && s.isEmpty
  | _ + 1, [], s => s.isEmpty
  | fuel + 1, '*' :: ps, s =>
    globFuel fuel ps s ||
      (match s with
       | [] => false
       | _ :: ss => globFuel fuel ('*' :: ps) ss)
  | fuel + 1, '?' :: ps, s =>
    (match s with
     | [] => false
     | _ :: ss => globFuel fuel ps ss)
  | fuel + 1, '[' :: ps, s =>
    (match splitClass ps with
     | some (neg, cls, rest) =>
       (match s with
        | [] => false
        | c :: ss =>
          (if neg then !(classMember cls c) else classMember cls c) && globFuel fuel rest ss)
     | none =>
       (match s with
        | [] => false
        | c :: ss => (c = '[') && globFuel fuel ps ss))
  | fuel + 1, p :: ps, s =>
    (match s with
     | [] => false
     | c :: ss => (p = c) && globFuel fuel ps ss)

/-- Python `fnmatch.fnmatch(name, pattern)` (POSIX: `normcase` is the
identity). -/
def pyFnmatch (name pattern : String) : Bool :=
  globFuel (pattern.data.length + name.data.length + 1) pattern.data name.data

/-! ## `src/theus/zones.py` -/

/-- Semantic zone of a context variable (`zones.py`, `ContextZone`). -/
inductive ContextZone where
  | DATA
  | SIGNAL
  | META
  | HEAVY
  | LOG
  deriving DecidableEq, Repr

/-- `zones.py` `resolve_zone`: zone of a key from its name prefix.
Prefix tuples are `PREFIX_SIGNAL = ("sig_", "cmd_")`,
`PREFIX_META = ("meta_",)`, `PREFIX_HEAVY = ("heavy_",)`,
`PREFIX_LOG = ("log_",)`; anything else is DATA. -/
def resolveZone (key : String) : ContextZone :=
  if pyStartsWith key "sig_" || pyStartsWith key "cmd_" then ContextZone.SIGNAL
  else if pyStartsWith key "meta_" then ContextZone.META
  else if pyStartsWith key "heavy_" then ContextZone.HEAVY
  else if pyStartsWith key "log_" then ContextZone.LOG
  else ContextZone.DATA

/-! ## `src/theus/context.py` — namespace policies and physics overrides -/

/-- `context.py` `NamespacePolicy`: per-namespace permission flags
(defaults: read/update/append allowed, delete denied). -/
structure NamespacePolicy where
  allow_read : Bool := true
  allow_update : Bool := true
  allow_delete : Bool := false
  allow_append : Bool := true
  deriving DecidableEq, Repr

/-- `NamespacePolicy.to_caps`: bitmask with READ=1, UPDATE=2, APPEND=4,
DELETE=8. -/
def NamespacePolicy.toCaps (p : NamespacePolicy) : Nat :=
  (if p.allow_read then 1 else 0) |||
  (if p.allow_update then 2 else 0) |||
  (if p.allow_append then 4 else 0) |||
  (if p.allow_delete then 8 else 0)

/-- The capability bits as named by `NamespacePolicy.to_caps`. -/
def CAP_READ : Nat := 1

/-- UPDATE bit of `NamespacePolicy.to_caps`. -/
def CAP_UPDATE : Nat := 2

/-- APPEND bit of `NamespacePolicy.to_caps`. -/
def CAP_APPEND : Nat := 4

/-- DELETE bit of `NamespacePolicy.to_caps`. -/
def CAP_DELETE : Nat := 8

/-- The three semantic markers of `context.py` used as `Annotated`
metadata on context fields. -/
inductive PhysicsAnnotation where
  | Mutable
  | AppendOnly
  | Immutable
  deriving DecidableEq, Repr

/-- The mask stored by `engine.py` `_parse_physics_overrides` for each
marker: `Mutable ↦ 15`, `AppendOnly ↦ 3` (source comment:
"CAP_READ | CAP_APPEND = 3"), `Immutable ↦ 1`. -/
def overrideMask : PhysicsAnnotation → Nat
  | .Mutable => 15
  | .AppendOnly => 3
  | .Immutable => 1

/-- `engine.py` `_parse_physics_overrides`, restricted to its observable
effect: every annotated field `path ↦ marker` found while walking the
context is stored as `PYTHON_PHYSICS_OVERRIDES[path] = overrideMask marker`
(later fields overwrite earlier entries with the same path, as Python dict
assignment does; lookup takes the last binding). -/
def parsePhysicsOverrides (fields : List (String × PhysicsAnnotation)) :
    List (String × Nat) :=
  fields.foldl (fun acc f => (f.1, overrideMask f.2) :: acc) []

/-- Dict lookup in the override map built by `parsePhysicsOverrides`
(first match in the accumulator = last write, Python-dict style). -/
def lookupOverride (m : List (String × Nat)) (path : String) : Option Nat :=
  match m with
  | [] => none
  | (k, v) :: rest => if k = path then some v else lookupOverride rest path

/-! ## `src/theus/guards.py` — the `ContextGuard` proxy -/

/-- Process-wide mutable state consulted by the guard:
`NamespaceRegistry()._namespaces` (keys = registered isolation
namespaces) and `PYTHON_PHYSICS_OVERRIDES`. -/
structure GuardEnv where
  registered : List String
  overrides : List (String × Nat)
  deriving Repr

/-- Access mode passed to `_check_zone_physics`
(`"read" / "write" / "append" / "delete"`). -/
inductive Mode where
  | read
  | write
  | append
  | delete
  deriving DecidableEq, Repr

/-- `mode in ("write", "append", "delete")`. -/
def Mode.isMutation : Mode → Bool
  | .read => false
  | _ => true

/-- Outcome of `ContextGuard._check_zone_physics`: pass, a
`PermissionError` for a CONSTANT write, or the `_PrivateZoneReadAccess`
sentinel telling the caller to return `None`. -/
inductive ZoneCheck where
  | ok
  | constDenied
  | privateHidden
  deriving DecidableEq, Repr

/-- Segment test `segment.startswith("const_")`. -/
def isConstSeg (seg : List Char) : Bool := chPrefixOf "const_".data seg

/-- Segment test `segment.startswith("internal_")`. -/
def isInternalSeg (seg : List Char) : Bool := chPrefixOf "internal_".data seg

/-- The override probe of `_check_zone_physics`:
`path in PYTHON_PHYSICS_OVERRIDES or base_path in PYTHON_PHYSICS_OVERRIDES`
where `base_path` strips every bracketed chunk from the path. -/
def hasPhysicsOverride (env : GuardEnv) (path : String) : Bool :=
  (lookupOverride env.overrides path).isSome ||
    (lookupOverride env.overrides (String.mk (stripBrackets path.data))).isSome

/-- Loop body of `_check_zone_physics` over the dot-split segments: a
`const_` segment denies any mutation unless an override is registered for
the whole path; an `internal_` segment hides a non-admin read. -/
def zoneLoop (env : GuardEnv) (isAdmin : Bool) (path : String) (mode : Mode) :
    List (List Char) → ZoneCheck
  | [] => .ok
  | seg :: rest =>
    if isConstSeg seg && mode.isMutation && !hasPhysicsOverride env path then
      .constDenied
    else if isInternalSeg seg && mode == Mode.read && !isAdmin then
      .privateHidden
    else zoneLoop env isAdmin path mode rest

/-- `ContextGuard._check_zone_physics(path, mode)`:
`segments = path.replace("[", ".").replace("]", "").split(".")`, then the
per-segment CONSTANT / PRIVATE rules. -/
def checkZonePhysics (env : GuardEnv) (isAdmin : Bool) (path : String)
    (mode : Mode) : ZoneCheck :=
  zoneLoop env isAdmin path mode (splitDots (normalizeChars path.data))

/-- Python value as seen through the guard: the scalar types named by the
source's `isinstance(val, (int, float, str, bool, type(None)))` checks,
plus lists and string-keyed dicts. -/
inductive PVal where
  | none
  | pbool (b : Bool)
  | pint (i : Int)
  | pstr (s : String)
  | plist (xs : List PVal)
  | pdict (m : List (String × PVal))

/-- `isinstance(val, (int, float, str, bool, type(None)))`. -/
def PVal.isScalar : PVal → Bool
  | .none | .pbool _ | .pint _ | .pstr _ => true
  | _ => false

/-- Association lookup for string-keyed maps of Python values. -/
def lookupStr (m : List (String × PVal)) (k : String) : Option PVal :=
  match m with
  | [] => Option.none
  | (a, v) :: rest => if a = k then some v else lookupStr rest k

/-- Association update (Python dict/attribute assignment: overwrite or
add). -/
def setStr : List (String × PVal) → String → PVal → List (String × PVal)
  | [], k, v => [(k, v)]
  | (a, w) :: rest, k, v =>
    if a = k then (a, v) :: rest else (a, w) :: setStr rest k v

/-- Python sequence index normalisation: negative indexes count from the
end; out of range is an `IndexError`. -/
def pyIndex (len : Nat) (n : Int) : Option Nat :=
  let m := if n < 0 then n + len else n
  if 0 ≤ m && m < len then some m.toNat else Option.none

/-- The object `self._inner._target` reached by the guard's dynamic
namespace fallback (in production the Rust `ProcessContext`): its plain
attributes and its `state.data` map. -/
structure TargetObj where
  attrs : List (String × PVal)
  stateData : List (String × PVal)

/-- Abstraction of the object wrapped by the guard (`self._inner`; in
production the Rust core guard, whose source is outside `src/`): its
attribute map, its item maps (string-keyed and integer-indexed), whether
it supports `__getitem__` / item assignment / the list methods, whether it
is a Python `dict`, and its optional `_target` back-pointer. -/
structure Inner where
  attrs : List (String × PVal)
  hasGetitem : Bool
  items : List (String × PVal)
  elems : List PVal
  setItemOk : Bool
  isDict : Bool
  hasListMethods : Bool
  target : Option TargetObj

/-- `full_path = name if self.path_prefix == "" else
f"{self.path_prefix}.{name}"`. -/
def joinAttrPath (pre name : String) : String :=
  if pre = "" then name else pre ++ "." ++ name

/-- Subscript key: Python distinguishes string keys (checked) from other
keys (e.g. integer indexes). -/
inductive PKey where
  | s (k : String)
  | i (n : Int)
  deriving DecidableEq, Repr

/-- Python `str(key)`. -/
def pkeyStr : PKey → String
  | .s k => k
  | .i n => toString n

/-- `full_path = str(key) if self.path_prefix == "" else
f"{self.path_prefix}[{key}]"` used by `__getitem__` / `__setitem__`. -/
def joinItemPath (pre : String) (key : PKey) : String :=
  if pre = "" then pkeyStr key else pre ++ "[" ++ pkeyStr key ++ "]"

/-- The guard fields set by `ContextGuard.__init__` that the access checks
read (`path_prefix`, the contract whitelists, `_local_is_admin`,
`strict_guards`). `__init__` normalises `allowed_inputs` /
`allowed_outputs` to concrete sets before storing them, so the
`inputs is None` legacy branches of `_is_allowed` are dead and the
whitelists are plain lists here. -/
structure Guard where
  pathPrefix : String
  allowedInputs : List String
  allowedOutputs : List String
  isAdmin : Bool
  strictGuards : Bool
  deriving DecidableEq, Repr

/-- `ContextGuard._is_allowed(path, mode)`: admin passes; a path whose
top-level segment is not a registered namespace passes; otherwise the
normalised path must match the contract patterns (reads may match inputs
or outputs, with parent-path and sub-path discovery both allowed; writes
match outputs only, with sub-path writes allowed). -/
def isAllowed (env : GuardEnv) (g : Guard) (path : String) (mode : Mode) : Bool :=
  if g.isAdmin then true
  else
    let normData := normalizeChars path.data
    let normPath := String.mk normData
    let topLevel := String.mk (topLevelOf normData)
    if !(env.registered.contains topLevel) then true
    else if mode == Mode.read then
      let allPatterns := g.allowedInputs ++ g.allowedOutputs
      if allPatterns.contains "*" then true
      else
        allPatterns.any (fun pattern =>
          let normPattern := String.mk (normalizeChars pattern.data)
          pyFnmatch normPath normPattern ||
          pyStartsWith normPath (normPattern ++ ".") ||
          pyStartsWith normPattern (normPath ++ "."))
    else
      let targets := g.allowedOutputs
      if targets.contains "*" then true
      else
        targets.any (fun pattern =>
          let normPattern := String.mk (normalizeChars pattern.data)
          pyFnmatch normPath normPattern ||
          pyStartsWith normPath (normPattern ++ "."))

/-- Result of an attribute read through `ContextGuard.__getattr__`. -/
inductive GetResult where
  | val (v : PVal)
  | internalAttr (name : String)
  | nestedGuard (path : String) (v : PVal)
  | adminGuard (v : PVal)
  | permError
  | attrError
  | itemError

/-- The Python-side attribute names `__getattr__` serves directly via
`object.__getattribute__` before any check. -/
def guardGetattrWhitelist : List String :=
  ["_inner", "_local_is_admin", "log", "_elevate", "is_admin", "is_proxy",
   "_outbox", "path_prefix", "allowed_inputs", "allowed_outputs",
   "transaction", "strict_guards"]

/-- The `except AttributeError` handler of `__getattr__`: first the
dict-style item fallback (`self._inner[name]` when the inner has
`__getitem__` and the name is not underscored, swallowing lookup errors),
then the RFC-002 dynamic namespace fallback through
`self._inner._target.state.data` (a failure inside it re-raises), else
`AttributeError`. -/
def attrFallback (env : GuardEnv) (g : Guard) (inner : Inner) (name : String) :
    GetResult :=
  let stage2 : GetResult :=
    if env.registered.contains name then
      match inner.target with
      | some t =>
        match lookupStr t.stateData name with
        | some v =>
          match v with
          | .pdict _ | .plist _ => .nestedGuard (joinAttrPath g.pathPrefix name) v
          | _ => .val v
        | Option.none => .attrError
      | Option.none => .attrError
    else .attrError
  if inner.hasGetitem && !(pyStartsWith name "_") then
    match lookupStr inner.items name with
    | some v => .val v
    | Option.none => stage2
  else stage2

/-- The tail of `__getattr__` after a value has been obtained from the
inner object: under admin a non-scalar value is wrapped in an elevated
child guard (the capability-propagation writes on `val` have no observable
effect in this model), otherwise the value is returned as is. (Rust
sub-guard values, which would be re-wrapped in a plain child guard, are
not part of the value model.) -/
def adminWrap (g : Guard) (v : PVal) : GetResult :=
  if g.isAdmin && !v.isScalar then .adminGuard v else .val v

/-- Outcome of the guard's recursive read of its own absent `_target`
attribute (evaluated by `__getattr__` when the inner returned `None`). -/
inductive TargetRead where
  | obj (t : TargetObj)
  | noneVal
  | permErr
  | attrErr

/-- `self._target` evaluated through `ContextGuard.__getattr__` (the
attribute is never set by `__init__`, so this recurses into the same
method with `name = "_target"`): zone physics may hide it (returns
`None`), the contract may deny it (`PermissionError`), otherwise
`getattr(self._inner, "_target")` either yields the target object or
raises `AttributeError` (which the handler re-raises, since `"_target"`
is underscored and not a registered namespace on the inner). -/
def readTargetAttr (env : GuardEnv) (g : Guard) (inner : Inner) : TargetRead :=
  let fullPath := joinAttrPath g.pathPrefix "_target"
  match checkZonePhysics env g.isAdmin fullPath .read with
  | .privateHidden => .noneVal
  | .constDenied => .permErr
  | .ok =>
    if !(isAllowed env g fullPath .read) then .permErr
    else
      match inner.target with
      | some t => .obj t
      | Option.none => .attrErr

/-- `ContextGuard.__getattr__(name)`: `__dict__` interception, Python-side
whitelist, zone physics (an `internal_` segment hides the value from
non-admin reads: return `None`), contract check, then delegation to the
inner object with the `AttributeError` fallback chain and the admin
wrapping. A stored `None` triggers the `if val is None and self._target`
probe; when the target is truthy the read is retried on it with a `None`
default. -/
def guardGetattr (env : GuardEnv) (g : Guard) (inner : Inner) (name : String) :
    GetResult :=
  if name = "__dict__" then .permError
  else if guardGetattrWhitelist.contains name then .internalAttr name
  else
    let fullPath := joinAttrPath g.pathPrefix name
    match checkZonePhysics env g.isAdmin fullPath .read with
    | .privateHidden => .val PVal.none
    | .constDenied => .permError
    | .ok =>
      if !(isAllowed env g fullPath .read) then .permError
      else
        match lookupStr inner.attrs name with
        | Option.none => attrFallback env g inner name
        | some v =>
          match v with
          | PVal.none =>
            match readTargetAttr env g inner with
            | .permErr => .permError
            | .attrErr => attrFallback env g inner name
            | .noneVal => adminWrap g PVal.none
            | .obj t => adminWrap g ((lookupStr t.attrs name).getD PVal.none)
          | _ => adminWrap g v

/-- `ContextGuard.__getitem__(key)`: the contract check runs only for
string keys (there is no zone-physics check here at all); the inner lookup
errors fall into the RFC-002 namespace fallback for string keys, otherwise
they re-raise; admin wraps non-scalar results. -/
def guardGetitem (env : GuardEnv) (g : Guard) (inner : Inner) (key : PKey) :
    GetResult :=
  let fullPath := joinItemPath g.pathPrefix key
  let denied : Bool :=
    match key with
    | .s _ => !(isAllowed env g fullPath .read)
    | .i _ => false
  if denied then .permError
  else
    let fetched : Option PVal :=
      match key with
      | .s k => if inner.hasGetitem then lookupStr inner.items k else Option.none
      | .i n =>
        if inner.hasGetitem then
          match pyIndex inner.elems.length n with
          | some m => inner.elems.get? m
          | Option.none => Option.none
        else Option.none
    match fetched with
    | some v => adminWrap g v
    | Option.none =>
      match key with
      | .s k =>
        if env.registered.contains k then
          match inner.target with
          | some t =>
            match lookupStr t.stateData k with
            | some v =>
              match v with
              | .pdict _ | .plist _ =>
                .nestedGuard (joinAttrPath g.pathPrefix k) v
              | _ => .val v
            | Option.none => .itemError
          | Option.none => .itemError
        else .itemError
      | .i _ => .itemError

/-- Result of a write through the guard. -/
inductive WriteResult where
  | forwarded (inner : Inner)
  | attrStyle (inner : Inner)
  | internalSet
  | constDenied
  | privateRaise
  | contractDenied
  | itemError

/-- Whether a write outcome is one of the guard-layer denials. -/
def WriteResult.isDenied : WriteResult → Bool
  | .constDenied | .privateRaise | .contractDenied => true
  | _ => false

/-- The Python-side attribute names `__setattr__` stores directly with
`object.__setattr__` before any check. -/
def guardSetattrNames : List String :=
  ["_inner", "_local_is_admin", "log", "_outbox", "path_prefix",
   "allowed_inputs", "allowed_outputs", "transaction", "strict_guards",
   "parent", "name"]

/-- The store step shared by `__setattr__` / `__setitem__` once the checks
have passed: a dict inner takes the item write, any other inner takes an
attribute write (`__setattr__`), while `__setitem__` forwards the item
write and falls back to an attribute write on `TypeError` for string
keys. -/
def innerStoreAttr (inner : Inner) (name : String) (value : PVal) : WriteResult :=
  if inner.isDict then .forwarded { inner with items := setStr inner.items name value }
  else .attrStyle { inner with attrs := setStr inner.attrs name value }

/-- `ContextGuard.__setattr__(name, value)`: internal-name bypass, zone
physics on the full path (CONSTANT blocks even admin), contract check,
then the dict-or-attribute store. -/
def guardSetattr (env : GuardEnv) (g : Guard) (inner : Inner) (name : String)
    (value : PVal) : WriteResult :=
  if guardSetattrNames.contains name then .internalSet
  else
    let fullPath := joinAttrPath g.pathPrefix name
    match checkZonePhysics env g.isAdmin fullPath .write with
    | .constDenied => .constDenied
    | .privateHidden => .privateRaise
    | .ok =>
      if !(isAllowed env g fullPath .write) then .contractDenied
      else innerStoreAttr inner name value

/-- The item store of `__setitem__` (`self._inner[key] = value` with the
`except (TypeError, AttributeError)` attribute-style fallback for string
keys; a non-string key re-raises). -/
def innerStoreItem (inner : Inner) (key : PKey) (value : PVal) : WriteResult :=
  if inner.setItemOk then
    match key with
    | .s k => .forwarded { inner with items := setStr inner.items k value }
    | .i n =>
      match pyIndex inner.elems.length n with
      | some m => .forwarded { inner with elems := inner.elems.set m value }
      | Option.none => .itemError
  else
    match key with
    | .s k => .attrStyle { inner with attrs := setStr inner.attrs k value }
    | .i _ => .itemError

/-- `ContextGuard.__setitem__(key, value)`: zone physics and contract are
checked only when the key is a string; then the item store. -/
def guardSetitem (env : GuardEnv) (g : Guard) (inner : Inner) (key : PKey)
    (value : PVal) : WriteResult :=
  let fullPath := joinItemPath g.pathPrefix key
  match key with
  | .s _ =>
    match checkZonePhysics env g.isAdmin fullPath .write with
    | .constDenied => .constDenied
    | .privateHidden => .privateRaise
    | .ok =>
      if !(isAllowed env g fullPath .write) then .contractDenied
      else innerStoreItem inner key value
  | .i _ => innerStoreItem inner key value

/-- Result of one of the intercepted destructive container methods. -/
inductive MethodResult where
  | forwarded
  | skipped
  | constDenied
  | privateRaise
  deriving DecidableEq, Repr

/-- `self.path_prefix or "?"` — the path handed to the zone check by the
destructive methods. -/
def methodZonePath (g : Guard) : String :=
  if g.pathPrefix = "" then "?" else g.pathPrefix

/-- Common shape of the intercepted destructive methods: zone physics on
the guard's own path with the method's mode, then forwarding to the inner
container when it has the method (the inner call itself — and the
admin-emulation retries of `clear`/`pop`/`remove` on an inner failure —
happen beyond this layer). -/
def destructiveCall (env : GuardEnv) (g : Guard) (inner : Inner) (mode : Mode) :
    MethodResult :=
  match checkZonePhysics env g.isAdmin (methodZonePath g) mode with
  | .constDenied => .constDenied
  | .privateHidden => .privateRaise
  | .ok => if inner.hasListMethods then .forwarded else .skipped

/-- `ContextGuard.append` (zone mode "append"). -/
def guardAppendCall (env : GuardEnv) (g : Guard) (inner : Inner) : MethodResult :=
  destructiveCall env g inner .append

/-- `ContextGuard.extend` (zone mode "append"). -/
def guardExtendCall (env : GuardEnv) (g : Guard) (inner : Inner) : MethodResult :=
  destructiveCall env g inner .append

/-- `ContextGuard.insert` (zone mode "append"). -/
def guardInsertCall (env : GuardEnv) (g : Guard) (inner : Inner) : MethodResult :=
  destructiveCall env g inner .append

/-- `ContextGuard.clear` (zone mode "delete"). -/
def guardClearCall (env : GuardEnv) (g : Guard) (inner : Inner) : MethodResult :=
  destructiveCall env g inner .delete

/-- `ContextGuard.pop` (zone mode "delete"). -/
def guardPopCall (env : GuardEnv) (g : Guard) (inner : Inner) : MethodResult :=
  destructiveCall env g inner .delete

/-- `ContextGuard.remove` (zone mode "delete"). -/
def guardRemoveCall (env : GuardEnv) (g : Guard) (inner : Inner) : MethodResult :=
  destructiveCall env g inner .delete

/-! ## CPython attribute protocol on `ContextGuard` instances

`ContextGuard` is a plain class: it declares no `__slots__` and no
`__getattribute__`, and its `__init__` populates the instance dictionary
through `object.__setattr__` (and the `self.log = …` line, whose name is
on the `__setattr__` bypass list). Under CPython's default
`object.__getattribute__`, an attribute read therefore resolves, in order:
the type's data descriptors (which include the `__dict__` getset
descriptor and the `is_admin` / `is_proxy` properties), the instance
dictionary, plain class attributes (methods), and only on failure of all
of these is `ContextGuard.__getattr__` invoked. -/

/-- The instance-dictionary keys written by `ContextGuard.__init__`, in
write order: `log`, the `object.__setattr__` block, then `_inner`. -/
def guardInstanceDictKeys : List String :=
  ["log", "_local_is_admin", "path_prefix", "allowed_inputs",
   "allowed_outputs", "transaction", "strict_guards", "parent", "name",
   "_inner"]

/-- Methods and properties defined on the `ContextGuard` class itself. -/
def contextGuardClassAttrs : List String :=
  ["__init__", "_check_zone_physics", "_is_allowed", "is_admin",
   "is_proxy", "_elevate", "__getattr__", "__getitem__", "append",
   "extend", "insert", "clear", "pop", "remove", "__setattr__",
   "__setitem__", "__iter__", "__contains__", "__len__", "__repr__"]

/-- What a plain attribute read on a `ContextGuard` instance resolves
to. -/
inductive PyAttrRead where
  | dictView (keys : List String)
  | instanceSlot (name : String)
  | classAttr (name : String)
  | fromGetattr (r : GetResult)

/-- CPython `object.__getattribute__` specialised to a `ContextGuard`
instance: `__dict__` resolves through the type-level getset descriptor to
the (populated) instance dictionary — `ContextGuard.__getattr__` is never
consulted for it; properties and instance attributes come next; only a
name found nowhere falls through to `__getattr__`. -/
def cpythonGetattribute (env : GuardEnv) (g : Guard) (inner : Inner)
    (name : String) : PyAttrRead :=
  if name = "__dict__" then .dictView guardInstanceDictKeys
  else if name = "is_admin" || name = "is_proxy" then .classAttr name
  else if guardInstanceDictKeys.contains name then .instanceSlot name
  else if contextGuardClassAttrs.contains name then .classAttr name
  else .fromGetattr (guardGetattr env g inner name)

/-! ## `src/theus/engine.py` — registration, contract compliance, retry -/

/-- Modelled from the spec: `theus/contracts.py` is not under `src/` (only
its callers are); the spec gives `semantic ∈ {PURE, EFFECT}`. -/
inductive SemanticType where
  | PURE
  | EFFECT
  deriving DecidableEq, Repr

/-- Modelled from the spec: the per-process contract record
`{ inputs, outputs, semantic, parallel }` of `theus/contracts.py` (not
under `src/`), as consumed by `engine.py`. -/
structure Contract where
  inputs : List String
  outputs : List String
  semantic : SemanticType
  parallelFlag : Bool
  deriving DecidableEq, Repr

/-- `TheusEngine.register`: the Semantic Firewall — a PURE contract may
not declare an input starting with `"signal."` or `"meta."`
(`ContractViolationError` on the first offender); otherwise the process is
added to the registry. -/
def registerProcess (registry : List String) (name : String)
    (contract : Option Contract) : Except String (List String) :=
  match contract with
  | some c =>
    if c.semantic = SemanticType.PURE then
      match c.inputs.find? (fun inp =>
          pyStartsWith inp "signal." || pyStartsWith inp "meta.") with
      | some inp =>
        .error ("Pure process cannot take inputs from Zone: Signal/Meta (Found: "
          ++ inp ++ ")")
      | Option.none => .ok (registry ++ [name])
    else .ok (registry ++ [name])
  | Option.none => .ok (registry ++ [name])

/-- `path == "local" or path.startswith("local.") or
path.startswith("local[")` — delta-log entries ignored by the contract
gatekeeper. -/
def isLocalScope (path : String) : Bool :=
  path = "local" || pyStartsWith path "local." || pyStartsWith path "local["

/-- One iteration of the pattern loop in
`TheusEngine._validate_contract_compliance`: the normalised path equals
the normalised pattern or extends it at a dot; or `fnmatch` matches; or
(coarse-update leniency, on the raw strings) the pattern extends the path
at a dot or bracket. -/
def coversPath (pattern path : String) : Bool :=
  let normPath := normalizeChars path.data
  let normPattern := normalizeChars pattern.data
  (chPrefixOf normPattern normPath &&
    (match normPath.drop normPattern.length with
     | [] => true
     | c :: _ => c = '.')) ||
  pyFnmatch (String.mk normPath) (String.mk normPattern) ||
  pyStartsWith pattern (path ++ ".") ||
  pyStartsWith pattern (path ++ "[")

/-- The path loop of `_validate_contract_compliance` (non-PURE case):
local-scope paths are skipped; the first path covered by no output
pattern raises `ContractViolationError`. -/
def complianceLoop (patterns : List String) : List String → Except String Unit
  | [] => .ok ()
  | path :: rest =>
    if isLocalScope path then complianceLoop patterns rest
    else if patterns.any (fun pattern => coversPath pattern path) then
      complianceLoop patterns rest
    else .error path

/-- `TheusEngine._validate_contract_compliance(func_name, contract,
pending_data, tx)`: a PURE process raises on any non-empty delta log; an
EFFECT process runs the per-path output check over
`tx.get_delta_log()`. -/
def contractCompliance (c : Contract) (deltaLog : List String) :
    Except String Unit :=
  if c.semantic = SemanticType.PURE then
    if deltaLog.isEmpty then .ok () else .error "PURE side-effects"
  else complianceLoop c.outputs deltaLog

/-- The call site in `TheusEngine._attempt_execute`:
`if contract and self._strict_guards:
self._validate_contract_compliance(...)`. -/
def contractGate (strictGuards : Bool) (contract : Option Contract)
    (deltaLog : List String) : Except String Unit :=
  match contract with
  | some c =>
    if strictGuards then contractCompliance c deltaLog else .ok ()
  | Option.none => .ok ()

/-- `MAX_BACKOFF_MS = 1000` from the Python retry fallback in
`TheusEngine.execute`. -/
def MAX_BACKOFF_MS : ℚ := 1000

/-- `raw_backoff = 50 * (2 ** (current_retries - 1))` for retry attempt
`n = current_retries ≥ 1`. -/
def rawBackoffMs (n : Nat) : ℚ := 50 * 2 ^ (n - 1)

/-- `actual_backoff = random.uniform(0, min(MAX_BACKOFF_MS, raw_backoff))`:
`random.uniform(0, b)` is modelled as `r * b` for an arbitrary
`r ∈ [0, 1]`. -/
def backoffWaitMs (r : ℚ) (n : Nat) : ℚ :=
  r * min MAX_BACKOFF_MS (rawBackoffMs n)

/-- Boolean success test for `Except` results. -/
def exOk : Except String α → Bool
  | .ok _ => true
  | .error _ => false

/-- A path contains a `const_`-prefixed segment (after bracket
normalisation and dot splitting, as `_check_zone_physics` does). -/
def containsConstSegment (path : String) : Bool :=
  (splitDots (normalizeChars path.data)).any isConstSeg

/-- A path contains an `internal_`-prefixed segment. -/
def containsInternalSegment (path : String) : Bool :=
  (splitDots (normalizeChars path.data)).any isInternalSeg

/-! ### Helper lemmas on the zone-physics loop -/

theorem zoneLoop_mutation_const (env : GuardEnv) (isAdmin : Bool)
    (path : String) (mode : Mode) (segs : List (List Char))
    (hmut : mode.isMutation = true)
    (hov : hasPhysicsOverride env path = false)
    (hany : segs.any isConstSeg = true) :
    zoneLoop env isAdmin path mode segs = ZoneCheck.constDenied := by
  induction segs with
  | nil => simp at hany
  | cons seg rest ih =>
    have hnr : (mode == Mode.read) = false := by
      cases mode <;> simp_all [Mode.isMutation]
    by_cases h : isConstSeg seg = true
    · simp [zoneLoop, h, hmut, hov]
    · have hrest : rest.any isConstSeg = true := by
        rw [List.any_cons] at hany
        rcases (Bool.or_eq_true _ _).mp hany with h1 | h2
        · exact absurd h1 h
        · exact h2
      simp [zoneLoop, h, hnr, ih hrest]

theorem zoneLoop_read_internal (env : GuardEnv) (path : String)
    (segs : List (List Char))
    (hany : segs.any isInternalSeg = true) :
    zoneLoop env false path Mode.read segs = ZoneCheck.privateHidden := by
  induction segs with
  | nil => simp at hany
  | cons seg rest ih =>
    by_cases h : isInternalSeg seg = true
    · simp [zoneLoop, h, Mode.isMutation]
    · have hrest : rest.any isInternalSeg = true := by
        rw [List.any_cons] at hany
        rcases (Bool.or_eq_true _ _).mp hany with h1 | h2
        · exact absurd h1 h
        · exact h2
      simp [zoneLoop, h, Mode.isMutation, ih hrest]

theorem zoneLoop_admin_read (env : GuardEnv) (path : String)
    (segs : List (List Char)) :
    zoneLoop env true path Mode.read segs = ZoneCheck.ok := by
  induction segs with
  | nil => rfl
  | cons seg rest ih => simp [zoneLoop, Mode.isMutation, ih]

theorem checkZonePhysics_const_mutation (env : GuardEnv) (isAdmin : Bool)
    (path : String) (mode : Mode)
    (hmut : mode.isMutation = true)
    (hov : hasPhysicsOverride env path = false)
    (hc : containsConstSegment path = true) :
    checkZonePhysics env isAdmin path mode = ZoneCheck.constDenied :=
  zoneLoop_mutation_const env isAdmin path mode _ hmut hov hc

theorem checkZonePhysics_internal_read (env : GuardEnv) (path : String)
    (hi : containsInternalSegment path = true) :
    checkZonePhysics env false path Mode.read = ZoneCheck.privateHidden :=
  zoneLoop_read_internal env path _ hi

theorem checkZonePhysics_admin_read (env : GuardEnv) (path : String) :
    checkZonePhysics env true path Mode.read = ZoneCheck.ok :=
  zoneLoop_admin_read env path _

/-! ### Concrete fixtures for the closed theorems -/

/-- A concrete inner container used by the concrete-input theorems. -/
def sampleInner : Inner :=
  { attrs := [("internal_secret", PVal.pstr "x"), ("data_public", PVal.pstr "y")],
    hasGetitem := true, items := [("k", PVal.pint 7)],
    elems := [PVal.pint 10, PVal.pint 20], setItemOk := true, isDict := true,
    hasListMethods := true, target := Option.none }

/-- A concrete guard rooted at namespace `domain`. -/
def sampleGuard : Guard :=
  { pathPrefix := "domain", allowedInputs := ["domain.x"],
    allowedOutputs := ["domain.x"], isAdmin := false, strictGuards := true }

/-! ### Shared lemma for C5 -/

theorem complianceLoop_ok_iff (patterns : List String) (log : List String) :
    exOk (complianceLoop patterns log) = true ↔
      ∀ p ∈ log, isLocalScope p = true ∨
        patterns.any (fun pattern => coversPath pattern p) = true := by
  induction log with
  | nil => simp [complianceLoop, exOk]
  | cons p rest ih =>
    by_cases h1 : isLocalScope p = true
    · have hl : complianceLoop patterns (p :: rest) = complianceLoop patterns rest := by
        simp [complianceLoop, h1]
      rw [hl, ih]
      constructor
      · intro h x hx
        rcases List.mem_cons.mp hx with rfl | hx2
        · exact Or.inl h1
        · exact h x hx2
      · intro h x hx
        exact h x (List.mem_cons_of_mem _ hx)
    · by_cases h2 : patterns.any (fun pattern => coversPath pattern p) = true
      · have hl : complianceLoop patterns (p :: rest) = complianceLoop patterns rest := by
          simp [complianceLoop, h1, h2]
        rw [hl, ih]
        constructor
        · intro h x hx
          rcases List.mem_cons.mp hx with rfl | hx2
          · exact Or.inr h2
          · exact h x hx2
        · intro h x hx
          exact h x (List.mem_cons_of_mem _ hx)
      · have hl : complianceLoop patterns (p :: rest) = Except.error p := by
          simp [complianceLoop, h1, h2]
        rw [hl]
        constructor
        · intro h
          simp [exOk] at h
        · intro h
          rcases h p (List.mem_cons_self p rest) with hc | hc
          · exact absurd hc h1
          · exact absurd hc h2

/-! ### Shared lemmas for C6 -/

theorem parseOverrides_foldl (gf : (String × PhysicsAnnotation) → String × Nat)
    (fields : List (String × PhysicsAnnotation)) (acc : List (String × Nat)) :
    fields.foldl (fun a f => gf f :: a) acc = (fields.map gf).reverse ++ acc := by
  induction fields generalizing acc with
  | nil => simp
  | cons f rest ih => simp [List.foldl_cons, ih]

theorem lookupOverride_map (fs : List (String × PhysicsAnnotation)) (path : String) :
    lookupOverride (fs.map (fun f => (f.1, overrideMask f.2))) path =
      (fs.find? (fun f => f.1 = path)).map (fun f => overrideMask f.2) := by
  induction fs with
  | nil => rfl
  | cons f rest ih =>
    by_cases h : f.1 = path
    · simp [lookupOverride, List.find?, h]
    · simp [lookupOverride, List.find?, h, ih]

/-! ### Mirror definition for C10 (the claim's unconditional forward) -/

/-- The claim's description of a non-string subscript read: fetch from the
underlying container directly — no registry, no whitelist, no zone check —
then the admin wrap. Compared against `guardGetitem` in C10. -/
def uncheckedGetInt (g : Guard) (inner : Inner) (n : Int) : GetResult :=
  let fetched : Option PVal :=
    if inner.hasGetitem then
      match pyIndex inner.elems.length n with
      | some m => inner.elems.get? m
      | Option.none => Option.none
    else Option.none
  match fetched with
  | some v => adminWrap g v
  | Option.none => GetResult.itemError

/-! ## Claim theorems -/

/-- C1, amended: for every path containing a `const_`-prefixed segment,
every guard write (`__setattr__`, string-keyed `__setitem__`), append
(`append`, `extend`, `insert`) and delete (`clear`, `pop`, `remove`)
operation is denied with a `PermissionError`, for admin and non-admin
guards alike — provided no explicit physics annotation override is
registered for the checked path (or its bracket-stripped base). The
original claim's "regardless of any override" is false: a registered
override suppresses the CONSTANT denial (see the counterexample). -/
theorem C1_const_ceiling_gate (env : GuardEnv) (g : Guard) (inner : Inner) :
    (∀ name value,
       containsConstSegment (joinAttrPath g.pathPrefix name) = true →
       hasPhysicsOverride env (joinAttrPath g.pathPrefix name) = false →
       guardSetattrNames.contains name = false →
       guardSetattr env g inner name value = WriteResult.constDenied)
  ∧ (∀ k value,
       containsConstSegment (joinItemPath g.pathPrefix (PKey.s k)) = true →
       hasPhysicsOverride env (joinItemPath g.pathPrefix (PKey.s k)) = false →
       guardSetitem env g inner (PKey.s k) value = WriteResult.constDenied)
  ∧ (containsConstSegment (methodZonePath g) = true →
     hasPhysicsOverride env (methodZonePath g) = false →
     guardAppendCall env g inner = MethodResult.constDenied ∧
     guardExtendCall env g inner = MethodResult.constDenied ∧
     guardInsertCall env g inner = MethodResult.constDenied ∧
     guardClearCall env g inner = MethodResult.constDenied ∧
     guardPopCall env g inner = MethodResult.constDenied ∧
     guardRemoveCall env g inner = MethodResult.constDenied) := by
  refine ⟨?_, ?_, ?_⟩
  · intro name value hc hov hwl
    have hwl2 : name ∉ guardSetattrNames := by simpa using hwl
    simp [guardSetattr, hwl2,
      checkZonePhysics_const_mutation env g.isAdmin _ Mode.write rfl hov hc]
  · intro k value hc hov
    simp [guardSetitem,
      checkZonePhysics_const_mutation env g.isAdmin _ Mode.write rfl hov hc]
  · intro hc hov
    refine ⟨?_, ?_, ?_, ?_, ?_, ?_⟩ <;>
      simp [guardAppendCall, guardExtendCall, guardInsertCall, guardClearCall,
        guardPopCall, guardRemoveCall, destructiveCall,
        checkZonePhysics_const_mutation env g.isAdmin _ Mode.append rfl hov hc,
        checkZonePhysics_const_mutation env g.isAdmin _ Mode.delete rfl hov hc]

/-- C1 counterexample: with an explicit physics override registered for
`domain.const_config` (mask 1, i.e. even `Immutable`), a `__setattr__`
write to that CONSTANT path is forwarded to the container, not denied —
the override does remove the CONSTANT ceiling at this layer. -/
theorem C1_override_removes_ceiling_cex :
    containsConstSegment "domain.const_config" = true
  ∧ (lookupOverride [("domain.const_config", 1)] "domain.const_config").isSome = true
  ∧ (guardSetattr { registered := [], overrides := [("domain.const_config", 1)] }
       { pathPrefix := "domain", allowedInputs := [], allowedOutputs := [],
         isAdmin := false, strictGuards := true }
       sampleInner "const_config" (PVal.pint 99)).isDenied = false :=
  ⟨by decide, by decide, by decide⟩

/-- C1 witness: concrete denials for an admin guard — a `__setattr__` on
`domain.const_cfg` and a `pop` on a guard rooted at
`domain.const_list`. -/
theorem C1_const_ceiling_gate_witness :
    guardSetattr { registered := [], overrides := [] }
      { pathPrefix := "domain", allowedInputs := [], allowedOutputs := [],
        isAdmin := true, strictGuards := true }
      sampleInner "const_cfg" (PVal.pint 1) = WriteResult.constDenied
  ∧ guardPopCall { registered := [], overrides := [] }
      { pathPrefix := "domain.const_list", allowedInputs := [], allowedOutputs := [],
        isAdmin := true, strictGuards := true } sampleInner = MethodResult.constDenied := by
  constructor
  · exact (C1_const_ceiling_gate { registered := [], overrides := [] }
      { pathPrefix := "domain", allowedInputs := [], allowedOutputs := [],
        isAdmin := true, strictGuards := true } sampleInner).1
      "const_cfg" (PVal.pint 1) (by decide) (by decide) (by decide)
  · exact ((C1_const_ceiling_gate { registered := [], overrides := [] }
      { pathPrefix := "domain.const_list", allowedInputs := [], allowedOutputs := [],
        isAdmin := true, strictGuards := true } sampleInner).2.2
      (by decide) (by decide)).2.2.2.2.1

/-- C2, amended: a path whose top-level segment is not a registered
isolation namespace skips only the contract-whitelist check (step 3):
`_is_allowed` passes unconditionally for reads and writes, and
`__setattr__` on such a path is determined solely by the zone-physics
check — the zone-physics check (step 2) is NOT skipped (see the
counterexample). -/
theorem C2_unregistered_namespace_skip (env : GuardEnv) (g : Guard) (inner : Inner) :
    (∀ path : String,
       env.registered.contains (String.mk (topLevelOf (normalizeChars path.data))) = false →
       isAllowed env g path Mode.read = true ∧ isAllowed env g path Mode.write = true)
  ∧ (∀ name value,
       env.registered.contains
         (String.mk (topLevelOf (normalizeChars (joinAttrPath g.pathPrefix name).data))) = false →
       guardSetattrNames.contains name = false →
       guardSetattr env g inner name value ≠ WriteResult.contractDenied ∧
       (checkZonePhysics env g.isAdmin (joinAttrPath g.pathPrefix name) Mode.write = ZoneCheck.ok →
         guardSetattr env g inner name value = innerStoreAttr inner name value)) := by
  have hallow : ∀ path : String,
      env.registered.contains (String.mk (topLevelOf (normalizeChars path.data))) = false →
      ∀ mode, isAllowed env g path mode = true := by
    intro path h mode
    by_cases ha : g.isAdmin
    · simp [isAllowed, ha]
    · simp [isAllowed, ha]
      exact Or.inl (by simpa using h)
  refine ⟨fun path h => ⟨hallow path h _, hallow path h _⟩, ?_⟩
  intro name value h hwl
  have hwl2 : name ∉ guardSetattrNames := by simpa using hwl
  have hall := hallow (joinAttrPath g.pathPrefix name) h Mode.write
  constructor
  · cases hz : checkZonePhysics env g.isAdmin (joinAttrPath g.pathPrefix name) Mode.write <;>
      cases hd : inner.isDict <;>
        simp [guardSetattr, hwl2, hz, hall, innerStoreAttr, hd]
  · intro hz
    simp [guardSetattr, hwl2, hz, hall]

/-- C2 counterexample: `const_x` is not a registered namespace, yet a
`__setattr__` write to it is stopped by the zone-physics check — it does
not pass through unconditionally. -/
theorem C2_zone_check_not_skipped_cex :
    (({ registered := ["domain"], overrides := [] } : GuardEnv).registered.contains
       (String.mk (topLevelOf (normalizeChars "const_x".data)))) = false
  ∧ guardSetattr { registered := ["domain"], overrides := [] }
      { pathPrefix := "", allowedInputs := [], allowedOutputs := [],
        isAdmin := false, strictGuards := true }
      sampleInner "const_x" (PVal.pint 1) = WriteResult.constDenied :=
  ⟨by decide, rfl⟩

/-- C2 witness: `outbox` is not registered, so reads and writes through it
pass the contract check, and a zone-clean write goes straight to the
store. -/
theorem C2_unregistered_namespace_skip_witness :
    (isAllowed { registered := ["domain"], overrides := [] } sampleGuard
        "outbox.q" Mode.read = true
   ∧ isAllowed { registered := ["domain"], overrides := [] } sampleGuard
        "outbox.q" Mode.write = true)
  ∧ guardSetattr { registered := ["domain"], overrides := [] }
      { pathPrefix := "", allowedInputs := [], allowedOutputs := [],
        isAdmin := false, strictGuards := true }
      sampleInner "outbox" (PVal.pint 1)
      = innerStoreAttr sampleInner "outbox" (PVal.pint 1) := by
  constructor
  · exact (C2_unregistered_namespace_skip { registered := ["domain"], overrides := [] }
      sampleGuard sampleInner).1 "outbox.q" (by decide)
  · exact ((C2_unregistered_namespace_skip { registered := ["domain"], overrides := [] }
      { pathPrefix := "", allowedInputs := [], allowedOutputs := [],
        isAdmin := false, strictGuards := true } sampleInner).2
      "outbox" (PVal.pint 1) (by decide) (by decide)).2 (by decide)

/-- C3 (code bug evaluation): under CPython's attribute protocol a read of
`__dict__` on a `ContextGuard` instance resolves through the type-level
descriptor to the populated instance dictionary (which exposes `_inner`
and the rest of the guard's state) and raises nothing; the
`PermissionError` branch inside `__getattr__` exists but is reached only
when normal lookup fails, which never happens for `__dict__`. -/
theorem C3_dict_descriptor_bypasses_getattr :
    cpythonGetattribute { registered := [], overrides := [] } sampleGuard
        sampleInner "__dict__" = PyAttrRead.dictView guardInstanceDictKeys
  ∧ guardInstanceDictKeys.contains "_inner" = true
  ∧ guardInstanceDictKeys.contains "path_prefix" = true
  ∧ guardGetattr { registered := [], overrides := [] } sampleGuard
        sampleInner "__dict__" = GetResult.permError :=
  ⟨rfl, by decide, by decide, rfl⟩

/-- C4: a non-admin attribute read of a path containing an `internal_`
segment returns `None` (the `_PrivateZoneReadAccess` sentinel is swallowed
— no exception), while an admin guard's read of the same name returns the
stored value (stated for stored non-`None` scalar values, as in the
spec's scenario). -/
theorem C4_private_zone_read :
    (∀ (env : GuardEnv) (g : Guard) (inner : Inner) (name : String),
       g.isAdmin = false →
       guardGetattrWhitelist.contains name = false →
       ¬ name = "__dict__" →
       containsInternalSegment (joinAttrPath g.pathPrefix name) = true →
       guardGetattr env g inner name = GetResult.val PVal.none)
  ∧ (∀ (env : GuardEnv) (g : Guard) (inner : Inner) (name : String) (v : PVal),
       g.isAdmin = true →
       guardGetattrWhitelist.contains name = false →
       ¬ name = "__dict__" →
       lookupStr inner.attrs name = some v →
       v.isScalar = true →
       ¬ v = PVal.none →
       guardGetattr env g inner name = GetResult.val v) := by
  constructor
  · intro env g inner name hadm hwl hnd hint
    have hwl2 : name ∉ guardGetattrWhitelist := by simpa using hwl
    have hz := checkZonePhysics_internal_read env (joinAttrPath g.pathPrefix name) hint
    simp [guardGetattr, hnd, hwl2, hadm, hz]
  · intro env g inner name v hadm hwl hnd hlook hscal hnone
    have hwl2 : name ∉ guardGetattrWhitelist := by simpa using hwl
    have hz := checkZonePhysics_admin_read env (joinAttrPath g.pathPrefix name)
    cases v with
    | none => exact absurd rfl hnone
    | plist xs => simp [PVal.isScalar] at hscal
    | pdict m => simp [PVal.isScalar] at hscal
    | pbool b =>
      simp [guardGetattr, hnd, hwl2, hadm, hz, hlook, isAllowed, adminWrap, PVal.isScalar]
    | pint i =>
      simp [guardGetattr, hnd, hwl2, hadm, hz, hlook, isAllowed, adminWrap, PVal.isScalar]
    | pstr s =>
      simp [guardGetattr, hnd, hwl2, hadm, hz, hlook, isAllowed, adminWrap, PVal.isScalar]

/-- C4 witness: the spec's scenario — non-admin read of `internal_secret`
returns `None` with no exception even though the contract only declares
`data_public`; an admin guard reads the stored `"x"`. -/
theorem C4_private_zone_read_witness :
    guardGetattr { registered := ["domain"], overrides := [] }
      { pathPrefix := "", allowedInputs := ["data_public"], allowedOutputs := [],
        isAdmin := false, strictGuards := true }
      sampleInner "internal_secret" = GetResult.val PVal.none
  ∧ guardGetattr { registered := ["domain"], overrides := [] }
      { pathPrefix := "", allowedInputs := [], allowedOutputs := [],
        isAdmin := true, strictGuards := true }
      sampleInner "internal_secret" = GetResult.val (PVal.pstr "x") := by
  constructor
  · exact C4_private_zone_read.1 _ _ _ _ rfl (by decide) (by decide) (by decide)
  · exact C4_private_zone_read.2 _ _ _ _ (PVal.pstr "x") rfl (by decide) (by decide)
      rfl (by decide) (by intro h; exact PVal.noConfusion h)

/-- C5, amended: with strict guards, for an EFFECT process the engine's
contract gatekeeper succeeds exactly when every delta-log path is either
local-scope or covered by an outputs pattern (equality, pattern-prefix at
a dot, `fnmatch` wildcard, or the coarse-update leniency where the path is
a prefix of a pattern); for a PURE process the gatekeeper raises on ANY
non-empty delta log, regardless of coverage or local scope (the original
claim's "no uncovered path ⇒ no violation" fails there — see the
counterexample). -/
theorem C5_contract_compliance_iff (c : Contract) (deltaLog : List String) :
    (c.semantic = SemanticType.EFFECT →
      (exOk (contractGate true (some c) deltaLog) = true ↔
        ∀ p ∈ deltaLog, isLocalScope p = true ∨
          c.outputs.any (fun pattern => coversPath pattern p) = true))
  ∧ (c.semantic = SemanticType.PURE →
      (exOk (contractGate true (some c) deltaLog) = true ↔ deltaLog = [])) := by
  constructor
  · intro hs
    have hg : contractGate true (some c) deltaLog = complianceLoop c.outputs deltaLog := by
      simp [contractGate, contractCompliance, hs]
    rw [hg]
    exact complianceLoop_ok_iff c.outputs deltaLog
  · intro hs
    cases deltaLog <;> simp [contractGate, contractCompliance, hs, exOk]

/-- C5 counterexample: a PURE process whose only delta-log path
`domain.x` is covered (by equality) by its outputs still fails the
gatekeeper — a `ContractViolation` is raised although no uncovered path
exists. -/
theorem C5_pure_raises_despite_coverage_cex :
    coversPath "domain.x" "domain.x" = true
  ∧ exOk (contractGate true
      (some { inputs := [], outputs := ["domain.x"],
              semantic := SemanticType.PURE, parallelFlag := false })
      ["domain.x"]) = false :=
  ⟨by decide, by decide⟩

/-- C5 witness: an EFFECT process passing (covered + local paths) and one
failing (uncovered path). -/
theorem C5_contract_compliance_iff_witness :
    exOk (contractGate true
      (some { inputs := [], outputs := ["domain.x"],
              semantic := SemanticType.EFFECT, parallelFlag := false })
      ["domain.x.y", "local.tmp"]) = true
  ∧ exOk (contractGate true
      (some { inputs := [], outputs := ["domain.x"],
              semantic := SemanticType.EFFECT, parallelFlag := false })
      ["domain.zz"]) = false := by
  constructor
  · exact ((C5_contract_compliance_iff _ _).1 rfl).mpr (by decide)
  · cases hb : exOk (contractGate true
      (some { inputs := [], outputs := ["domain.x"],
              semantic := SemanticType.EFFECT, parallelFlag := false })
      ["domain.zz"]) with
    | false => rfl
    | true => exact absurd (((C5_contract_compliance_iff _ _).1 rfl).mp hb) (by decide)

/-- C6, amended: engine construction stores `Mutable ↦ 15`,
`AppendOnly ↦ 3` and `Immutable ↦ 1` in the physics-override map. Under
the `NamespacePolicy.to_caps` bit layout (READ=1, UPDATE=2, APPEND=4,
DELETE=8) the stored `Mutable` mask is READ|UPDATE|APPEND|DELETE and the
`Immutable` mask is READ as claimed, but the stored `AppendOnly` mask 3
equals READ|UPDATE, not READ|APPEND (= 5): the engine's comment
"CAP_READ | CAP_APPEND = 3" assumes a different layout with APPEND=2. -/
theorem C6_physics_override_masks :
    (∀ (fields : List (String × PhysicsAnnotation)) (path : String),
      lookupOverride (parsePhysicsOverrides fields) path =
        (fields.reverse.find? (fun f => f.1 = path)).map (fun f => overrideMask f.2))
  ∧ overrideMask PhysicsAnnotation.Mutable
      = (CAP_READ ||| CAP_UPDATE ||| CAP_APPEND ||| CAP_DELETE)
  ∧ overrideMask PhysicsAnnotation.Immutable = CAP_READ
  ∧ overrideMask PhysicsAnnotation.AppendOnly = (CAP_READ ||| CAP_UPDATE)
  ∧ ¬ overrideMask PhysicsAnnotation.AppendOnly = (CAP_READ ||| CAP_APPEND) := by
  refine ⟨?_, by decide, by decide, by decide, by decide⟩
  intro fields path
  have h1 : parsePhysicsOverrides fields
      = (fields.map (fun f => (f.1, overrideMask f.2))).reverse ++ [] :=
    parseOverrides_foldl _ fields []
  rw [h1, List.append_nil, ← List.map_reverse, lookupOverride_map]

/-- C6 counterexample: an `AppendOnly` field is stored with mask 3, but
READ|APPEND under the claimed bit layout (READ=1, APPEND=4) is 5. -/
theorem C6_appendonly_mask_cex :
    lookupOverride
      (parsePhysicsOverrides [("domain.events", PhysicsAnnotation.AppendOnly)])
      "domain.events" = some 3
  ∧ (CAP_READ ||| CAP_APPEND) = 5
  ∧ ¬ (3 : Nat) = (CAP_READ ||| CAP_APPEND) := by
  refine ⟨?_, by decide, by decide⟩
  rfl

/-- C6 witness: the parsed override map evaluated at a concrete field
list. -/
theorem C6_physics_override_masks_witness :
    lookupOverride (parsePhysicsOverrides
      [("a", PhysicsAnnotation.Mutable), ("b", PhysicsAnnotation.AppendOnly)]) "b"
      = some (overrideMask PhysicsAnnotation.AppendOnly) := by
  rw [(C6_physics_override_masks).1
    [("a", PhysicsAnnotation.Mutable), ("b", PhysicsAnnotation.AppendOnly)] "b"]
  rfl

/-- C7, amended: `resolve_zone` sends `log_` keys to LOG, `sig_`/`cmd_`
to SIGNAL, `meta_` to META, `heavy_` to HEAVY, and every other key —
including `audit_` keys, which have no rule — to DATA. (The claim's
"`audit_` → LOG" fails: see the counterexample.) -/
theorem C7_resolve_zone_prefixes :
    (∀ s : String,
       resolveZone ("log_" ++ s) = ContextZone.LOG ∧
       resolveZone ("audit_" ++ s) = ContextZone.DATA ∧
       resolveZone ("sig_" ++ s) = ContextZone.SIGNAL ∧
       resolveZone ("cmd_" ++ s) = ContextZone.SIGNAL ∧
       resolveZone ("meta_" ++ s) = ContextZone.META ∧
       resolveZone ("heavy_" ++ s) = ContextZone.HEAVY)
  ∧ (∀ key : String,
       pyStartsWith key "sig_" = false → pyStartsWith key "cmd_" = false →
       pyStartsWith key "meta_" = false → pyStartsWith key "heavy_" = false →
       pyStartsWith key "log_" = false →
       resolveZone key = ContextZone.DATA) := by
  constructor
  · exact fun s => ⟨rfl, rfl, rfl, rfl, rfl, rfl⟩
  · intro key h1 h2 h3 h4 h5
    simp [resolveZone, h1, h2, h3, h4, h5]

/-- C7 counterexample: `audit_trail` resolves to DATA, not LOG. -/
theorem C7_audit_goes_to_data_cex :
    resolveZone "audit_trail" = ContextZone.DATA
  ∧ ¬ ContextZone.DATA = ContextZone.LOG :=
  ⟨rfl, by decide⟩

/-- C7 witness: concrete prefix resolutions. -/
theorem C7_resolve_zone_prefixes_witness :
    resolveZone ("log_" ++ "events") = ContextZone.LOG
  ∧ resolveZone ("sig_" ++ "stop") = ContextZone.SIGNAL
  ∧ resolveZone "count" = ContextZone.DATA := by
  refine ⟨(C7_resolve_zone_prefixes.1 "events").1,
    (C7_resolve_zone_prefixes.1 "stop").2.2.1, ?_⟩
  exact C7_resolve_zone_prefixes.2 "count"
    (by decide) (by decide) (by decide) (by decide) (by decide)

/-- C8: for Python-side retry attempt `n ≥ 1` the backoff wait,
modelled as `r * min(1000, 50·2^(n-1))` for an arbitrary uniform draw
`r ∈ [0,1]`, lies in `[0, min(1000, 50·2^(n-1))]` and in particular never
exceeds 1000 ms. -/
theorem C8_backoff_bounds (n : Nat) (r : ℚ)
    (_hn : 1 ≤ n) (h0 : 0 ≤ r) (h1 : r ≤ 1) :
    0 ≤ backoffWaitMs r n ∧
    backoffWaitMs r n ≤ min MAX_BACKOFF_MS (rawBackoffMs n) ∧
    backoffWaitMs r n ≤ 1000 := by
  have hraw : (0:ℚ) ≤ rawBackoffMs n := by
    unfold rawBackoffMs
    positivity
  have hmin : (0:ℚ) ≤ min MAX_BACKOFF_MS (rawBackoffMs n) :=
    le_min (by norm_num [MAX_BACKOFF_MS]) hraw
  have hle : backoffWaitMs r n ≤ min MAX_BACKOFF_MS (rawBackoffMs n) := by
    unfold backoffWaitMs
    calc r * min MAX_BACKOFF_MS (rawBackoffMs n)
        ≤ 1 * min MAX_BACKOFF_MS (rawBackoffMs n) :=
          mul_le_mul_of_nonneg_right h1 hmin
      _ = min MAX_BACKOFF_MS (rawBackoffMs n) := one_mul _
  exact ⟨mul_nonneg h0 hmin, hle, hle.trans (min_le_left _ _)⟩

/-- C8 witness: retry attempt 5 with draw 1/2. -/
theorem C8_backoff_bounds_witness :
    1 ≤ 5 ∧
    (0 ≤ backoffWaitMs (1/2 : ℚ) 5 ∧
     backoffWaitMs (1/2 : ℚ) 5 ≤ min MAX_BACKOFF_MS (rawBackoffMs 5) ∧
     backoffWaitMs (1/2 : ℚ) 5 ≤ 1000) :=
  ⟨by norm_num, C8_backoff_bounds 5 (1/2) (by norm_num) (by norm_num) (by norm_num)⟩

/-- C9: registering a process with a PURE contract fails with
`ContractViolationError` exactly when some declared input starts with
`"signal."` or `"meta."`; with no such input (and for EFFECT contracts)
the process is registered. -/
theorem C9_pure_semantic_firewall (registry : List String) (name : String)
    (c : Contract) :
    (exOk (registerProcess registry name (some c)) = false ↔
      c.semantic = SemanticType.PURE ∧
        c.inputs.any (fun inp =>
          pyStartsWith inp "signal." || pyStartsWith inp "meta.") = true)
  ∧ ((c.semantic = SemanticType.PURE →
        c.inputs.any (fun inp =>
          pyStartsWith inp "signal." || pyStartsWith inp "meta.") = false) →
      registerProcess registry name (some c) = Except.ok (registry ++ [name])) := by
  cases hs : c.semantic with
  | EFFECT =>
    constructor
    · simp [registerProcess, hs, exOk]
    · intro _
      simp [registerProcess, hs]
  | PURE =>
    cases hf : c.inputs.find? (fun inp =>
        pyStartsWith inp "signal." || pyStartsWith inp "meta.") with
    | none =>
      have hany : c.inputs.any (fun inp =>
          pyStartsWith inp "signal." || pyStartsWith inp "meta.") = false := by
        rw [List.any_eq_false]
        intro x hx
        have := List.find?_eq_none.mp hf x hx
        simpa using this
      constructor
      · simp [registerProcess, hs, hf, exOk, hany]
      · intro _
        simp [registerProcess, hs, hf]
    | some inp =>
      have hp := List.find?_some hf
      have hmem := List.mem_of_find?_eq_some hf
      have hany : c.inputs.any (fun inp =>
          pyStartsWith inp "signal." || pyStartsWith inp "meta.") = true :=
        List.any_eq_true.mpr ⟨inp, hmem, hp⟩
      constructor
      · simp [registerProcess, hs, hf, exOk, hany]
      · intro hcon
        rw [hcon rfl] at hany
        exact absurd hany (by simp)

/-- C9 witness: a PURE process with a `signal.` input is denied; a PURE
process without one registers. -/
theorem C9_pure_semantic_firewall_witness :
    exOk (registerProcess [] "p_sig"
      (some { inputs := ["signal.go"], outputs := [],
              semantic := SemanticType.PURE, parallelFlag := false })) = false
  ∧ registerProcess [] "p_ok"
      (some { inputs := ["data.x"], outputs := [],
              semantic := SemanticType.PURE, parallelFlag := false })
      = Except.ok ["p_ok"] := by
  constructor
  · exact (C9_pure_semantic_firewall [] "p_sig" _).1.mpr ⟨rfl, by decide⟩
  · exact (C9_pure_semantic_firewall [] "p_ok" _).2 (fun _ => by decide)

/-- C10: for a non-string subscript key, `__getitem__` equals the
unconditional forward (no zone-physics, no contract check) and
`__setitem__` equals the bare item store, independent of the registry,
the overrides and the whole guard configuration; no guard-layer denial is
possible. -/
theorem C10_nonstring_keys_unchecked (env env2 : GuardEnv) (g g2 : Guard)
    (inner : Inner) (n : Int) (value : PVal) :
    guardGetitem env g inner (PKey.i n) = uncheckedGetInt g inner n
  ∧ guardSetitem env g inner (PKey.i n) value = innerStoreItem inner (PKey.i n) value
  ∧ guardSetitem env g inner (PKey.i n) value = guardSetitem env2 g2 inner (PKey.i n) value
  ∧ (guardSetitem env g inner (PKey.i n) value).isDenied = false := by
  refine ⟨rfl, rfl, rfl, ?_⟩
  cases hio : inner.setItemOk with
  | false => simp [guardSetitem, innerStoreItem, hio, WriteResult.isDenied]
  | true =>
    cases hpi : pyIndex inner.elems.length n <;>
      simp [guardSetitem, innerStoreItem, hio, hpi, WriteResult.isDenied]

/-- C10 witness: a concrete integer subscript read forwarded unchecked. -/
theorem C10_nonstring_keys_unchecked_witness :
    guardGetitem { registered := ["domain"], overrides := [] } sampleGuard
      sampleInner (PKey.i 1) = uncheckedGetInt sampleGuard sampleInner 1 :=
  (C10_nonstring_keys_unchecked { registered := ["domain"], overrides := [] }
    { registered := [], overrides := [] } sampleGuard sampleGuard sampleInner 1
    PVal.none).1

end Theus
